import Mathlib

/-!
# CameraGalleryApp (src/App.js): a shallow embedding

The component of `src/App.js` is a set of React state variables, four handlers that
each await a host service, a pure facing toggle, and a render function selecting one of
four screens.  Every handler is embedded as a function from the state at the time of
the press and the outcome the host settles the awaited call with, to the state
afterwards together with the host calls and prompts it issued, in program order.
-/

namespace CameraGalleryApp

/-! ## Values exchanged with the host -/

/-- A JavaScript exception value. -/
structure JSError where
  message : String
  deriving DecidableEq, Repr

/-- How an awaited host promise settles. -/
inductive Settled (α : Type) where
  | resolved (value : α)
  | rejected (error : JSError)
  deriving DecidableEq, Repr

/-- A decimal literal `mantissa * 10 ^ (-exponent)`; the source only passes `0.8` through. -/
structure Decimal where
  mantissa : Nat
  exponent : Nat
  deriving DecidableEq, Repr

/-- The value of `useCameraPermissions()[0]` once it is not `null`. -/
structure PermissionResponse where
  granted : Bool
  deriving DecidableEq, Repr

/-- The object `takePictureAsync` resolves with; only `uri` is read. -/
structure CameraCapturedPicture where
  uri : String
  deriving DecidableEq, Repr

/-- One entry of `result.assets`; only `uri` is read. -/
structure ImagePickerAsset where
  uri : String
  deriving DecidableEq, Repr

/-- The object `launchImageLibraryAsync` resolves with (`assets` is `null` on cancel). -/
structure ImagePickerResult where
  canceled : Bool
  assets : Option (List ImagePickerAsset)
  deriving DecidableEq, Repr

/-- The members of `ImagePicker.MediaTypeOptions`. -/
inductive MediaTypeOptions where
  | All
  | Videos
  | Images
  deriving DecidableEq, Repr

/-- The options object passed to `launchImageLibraryAsync`. -/
structure ImagePickerOptions where
  mediaTypes : MediaTypeOptions
  allowsEditing : Bool
  quality : Decimal
  deriving DecidableEq, Repr

/-! ## State -/

/-- The hook state of `CameraGalleryApp` (lines 15-20).  `cameraRef` is `true` when
`cameraRef.current` is non-null. -/
structure State where
  permission : Option PermissionResponse
  hasGalleryPermission : Option Bool
  facing : String
  capturedImage : Option String
  showCamera : Bool
  cameraRef : Bool
  deriving DecidableEq, Repr

/-- The state at mount: the `useState` / `useRef` initial values of lines 16-20. -/
def initialState (permission : Option PermissionResponse) : State :=
  { permission := permission
    hasGalleryPermission := none
    facing := "back"
    capturedImage := none
    showCamera := false
    cameraRef := false }

/-! ## Observable effects -/

/-- A host call or prompt issued by a handler. -/
inductive Effect where
  | requestMediaLibraryPermissionsAsync
  | requestPermissionsAsync (writeOnly : Bool)
  | createAssetAsync (localUri : Option String)
  | takePictureAsync (quality : Decimal)
  | launchImageLibraryAsync (options : ImagePickerOptions)
  | consoleLog (e : JSError)
  | alert (title : String) (message : String)
  deriving DecidableEq, Repr

/-- How an async handler finishes: its promise fulfils, or rejects with an error. -/
inductive Completion where
  | normal
  | thrown (error : JSError)
  deriving DecidableEq, Repr

/-- The result of running a handler to completion. -/
structure Run where
  state : State
  effects : List Effect
  completion : Completion
  deriving DecidableEq, Repr

/-- JavaScript truthiness of a `null | boolean` value. -/
def truthyBool : Option Bool → Bool
  | some true => true
  | _ => false

/-- JavaScript truthiness of a `null | string` value: `null` and `""` are falsy. -/
def truthyString : Option String → Bool
  | none => false
  | some u => u != ""

/-! ## Handlers -/

/-- Lines 26-36.  There is no `try`: a rejection of the host call rejects the handler. -/
def requestGalleryPermission (s : State) (host : Settled String) : Run :=
  match host with
  | .rejected e =>
    { state := s
      effects := [.requestMediaLibraryPermissionsAsync]
      completion := .thrown e }
  | .resolved status =>
    { state := { s with hasGalleryPermission := some (status == "granted") }
      effects :=
        if status != "granted" then
          [.requestMediaLibraryPermissionsAsync,
           .alert "Permiso denegado" "Se necesita acceso a la galería para usar esta función"]
        else
          [.requestMediaLibraryPermissionsAsync]
      completion := .normal }

/-- Lines 38-57.  `create` is the outcome of `createAssetAsync`, consulted only when the
call is reached. -/
def saveToGallery (s : State) (perm : Settled String) (create : Settled Unit) : Run :=
  match perm with
  | .rejected e =>
    { state := s
      effects := [.requestPermissionsAsync true, .consoleLog e,
                  .alert "Error" "No se pudo guardar la imagen."]
      completion := .normal }
  | .resolved status =>
    if status != "granted" then
      { state := s
        effects := [.requestPermissionsAsync true,
                    .alert "Permiso denegado" "No se concedió permiso para guardar en la galería."]
        completion := .normal }
    else
      match create with
      | .resolved _ =>
        { state := s
          effects := [.requestPermissionsAsync true, .createAssetAsync s.capturedImage,
                      .alert "Listo" "Imagen guardada en la galería."]
          completion := .normal }
      | .rejected e =>
        { state := s
          effects := [.requestPermissionsAsync true, .createAssetAsync s.capturedImage,
                      .consoleLog e, .alert "Error" "No se pudo guardar la imagen."]
          completion := .normal }

/-- Lines 59-71. -/
def takePicture (s : State) (host : Settled CameraCapturedPicture) : Run :=
  if s.cameraRef then
    match host with
    | .resolved photo =>
      { state := { s with capturedImage := some photo.uri, showCamera := false }
        effects := [.takePictureAsync ⟨8, 1⟩]
        completion := .normal }
    | .rejected _ =>
      { state := s
        effects := [.takePictureAsync ⟨8, 1⟩, .alert "Error" "No se pudo tomar la fotografía"]
        completion := .normal }
  else
    { state := s, effects := [], completion := .normal }

/-- The expression `result.assets[0].uri` of line 85: indexing `null`, or reading `uri`
of the `undefined` first element of an empty array, throws a `TypeError`. -/
def firstAssetUri (result : ImagePickerResult) : Except JSError String :=
  match result.assets with
  | none => .error ⟨"TypeError"⟩
  | some [] => .error ⟨"TypeError"⟩
  | some (asset :: _) => .ok asset.uri

/-- The options literal of lines 79-83. -/
def pickerOptions : ImagePickerOptions :=
  { mediaTypes := .Images, allowsEditing := true, quality := ⟨8, 1⟩ }

/-- Lines 73-90. -/
def pickImageFromGallery (s : State) (host : Settled ImagePickerResult) : Run :=
  if !truthyBool s.hasGalleryPermission then
    { state := s
      effects := [.alert "Error" "No tienes permiso para acceder a la galería"]
      completion := .normal }
  else
    match host with
    | .resolved result =>
      if !result.canceled then
        match firstAssetUri result with
        | .ok uri =>
          { state := { s with capturedImage := some uri }
            effects := [.launchImageLibraryAsync pickerOptions]
            completion := .normal }
        | .error _ =>
          { state := s
            effects := [.launchImageLibraryAsync pickerOptions,
                        .alert "Error" "No se pudo abrir la galería"]
            completion := .normal }
      else
        { state := s
          effects := [.launchImageLibraryAsync pickerOptions]
          completion := .normal }
    | .rejected _ =>
      { state := s
        effects := [.launchImageLibraryAsync pickerOptions,
                    .alert "Error" "No se pudo abrir la galería"]
        completion := .normal }

/-- Lines 92-94. -/
def toggleCameraFacing (s : State) : Run :=
  { state := { s with facing := if s.facing == "back" then "front" else "back" }
    effects := []
    completion := .normal }

/-- Line 138: `() => setShowCamera(false)`. -/
def closeCamera (s : State) : Run :=
  { state := { s with showCamera := false }, effects := [], completion := .normal }

/-- Line 158: `() => setShowCamera(true)`. -/
def openCamera (s : State) : Run :=
  { state := { s with showCamera := true }, effects := [], completion := .normal }

/-- Line 171: `() => setCapturedImage(null)`. -/
def clearImage (s : State) : Run :=
  { state := { s with capturedImage := none }, effects := [], completion := .normal }

/-- Lines 177-180: `await saveToGallery(); setCapturedImage(null)`.  The second
statement runs only if the awaited promise fulfils. -/
def saveImage (s : State) (perm : Settled String) (create : Settled Unit) : Run :=
  let r := saveToGallery s perm create
  match r.completion with
  | .normal => { r with state := { r.state with capturedImage := none } }
  | .thrown _ => r

/-! ## Rendering -/

/-- The `onPress` handlers wired in the JSX. -/
inductive Handler where
  | requestPermission
  | toggleCameraFacing
  | takePicture
  | closeCamera
  | openCamera
  | pickImageFromGallery
  | clearImage
  | saveImage
  deriving DecidableEq, Repr

/-- A rendered child, with layout-only wrappers flattened. -/
inductive Node where
  | text (content : String)
  | image (uri : String)
  | button (label : String) (onPress : Handler)
  | bareString (content : String)
  deriving DecidableEq, Repr

/-- Which of the four `return` statements of lines 96-187 produced the screen. -/
inductive ScreenKind where
  | requesting
  | denied
  | camera (facing : String)
  | default
  deriving DecidableEq, Repr

/-- The rendered screen. -/
structure Screen where
  kind : ScreenKind
  children : List Node
  deriving DecidableEq, Repr

/-- The JSX expression `capturedImage && (...)`: a falsy left operand is the value of
the whole expression, so `null` renders nothing and `""` is a bare string child. -/
def whenCaptured (capturedImage : Option String) (jsx : String → List Node) : List Node :=
  match capturedImage with
  | none => []
  | some u => if u == "" then [.bareString u] else jsx u

/-- Lines 96-187. -/
def render (s : State) : Screen :=
  match s.permission with
  | none => { kind := .requesting, children := [.text "Solicitando permisos..."] }
  | some p =>
    if !p.granted then
      { kind := .denied
        children := [.text "No se concedieron permisos para la cámara",
                     .button "Solicitar permiso" .requestPermission] }
    else if s.showCamera then
      { kind := .camera s.facing
        children := [.button "🔄 Voltear" .toggleCameraFacing,
                     .button "" .takePicture,
                     .button "❌ Cerrar" .closeCamera] }
    else
      { kind := .default
        children :=
          [.text "📸 Cámara y Galería"]
          ++ whenCaptured s.capturedImage (fun u => [.image u])
          ++ [.button "📷 Abrir cámara" .openCamera,
              .button "🖼️ Abrir galería" .pickImageFromGallery]
          ++ whenCaptured s.capturedImage (fun _ =>
              [.button "🧹 Limpiar imagen" .clearImage,
               .button "Guardar Imagen" .saveImage]) }

/-- The preview `<Image>` of line 153 is on screen. -/
def previewRendered (scr : Screen) : Bool :=
  scr.children.any fun n => match n with
    | .image _ => true
    | _ => false

/-- The clear control of lines 169-174 is on screen. -/
def clearRendered (scr : Screen) : Bool :=
  scr.children.any fun n => match n with
    | .button _ .clearImage => true
    | _ => false

/-- The save control of lines 175-183 is on screen. -/
def saveRendered (scr : Screen) : Bool :=
  scr.children.any fun n => match n with
    | .button _ .saveImage => true
    | _ => false

/-! ## The component as a transition system -/

/-- Everything that can happen to the mounted component: a user press together with the
host outcome its handler awaits, or a change the framework makes to a hook value. -/
inductive Action where
  | galleryPermission (host : Settled String)
  | cameraPermission (p : Option PermissionResponse)
  | cameraRefSet (current : Bool)
  | toggleCameraFacing
  | takePicture (host : Settled CameraCapturedPicture)
  | closeCamera
  | openCamera
  | pickImageFromGallery (host : Settled ImagePickerResult)
  | clearImage
  | saveImage (perm : Settled String) (create : Settled Unit)
  deriving DecidableEq, Repr

/-- One step: run the handler of the action on the current state. -/
def step (s : State) : Action → Run
  | .galleryPermission host => requestGalleryPermission s host
  | .cameraPermission p =>
    { state := { s with permission := p }, effects := [], completion := .normal }
  | .cameraRefSet current =>
    { state := { s with cameraRef := current }, effects := [], completion := .normal }
  | .toggleCameraFacing => toggleCameraFacing s
  | .takePicture host => takePicture s host
  | .closeCamera => closeCamera s
  | .openCamera => openCamera s
  | .pickImageFromGallery host => pickImageFromGallery s host
  | .clearImage => clearImage s
  | .saveImage perm create => saveImage s perm create

/-- The state after a sequence of actions. -/
def exec (s : State) : List Action → State
  | [] => s
  | a :: rest => exec (step s a).state rest

/-- A state the component can be in: some action sequence leads to it from mount. -/
def Reachable (s : State) : Prop :=
  ∃ (p : Option PermissionResponse) (actions : List Action), exec (initialState p) actions = s

/-! ## The interaction log and the references the specification speaks of -/

/-- One entry of the interaction log: an action, and the two facts about the state at the
moment of the press on which a host call depends: whether `cameraRef.current` was
non-null, and the value of `hasGalleryPermission`. -/
structure Event where
  action : Action
  handle : Bool
  galleryPermission : Option Bool
  deriving DecidableEq, Repr

/-- The log of a sequence of actions, oldest first. -/
def log (s : State) : List Action → List Event
  | [] => []
  | a :: rest =>
    { action := a, handle := s.cameraRef, galleryPermission := s.hasGalleryPermission }
      :: log (step s a).state rest

/-- The effect is a still-frame capture request. -/
def isCaptureCall : Effect → Bool
  | .takePictureAsync _ => true
  | _ => false

/-- The effect is a launch of the host picker. -/
def isPickerCall : Effect → Bool
  | .launchImageLibraryAsync _ => true
  | _ => false

/-- The effect is a gallery-write permission request. -/
def isWritePermissionCall : Effect → Bool
  | .requestPermissionsAsync _ => true
  | _ => false

/-- The effect is an asset-creation request. -/
def isCreateAssetCall : Effect → Bool
  | .createAssetAsync _ => true
  | _ => false

/-- The prompts among the effects, as (title, message) pairs in order. -/
def prompts : List Effect → List (String × String)
  | [] => []
  | .alert title message :: rest => (title, message) :: prompts rest
  | _ :: rest => prompts rest

/-- Specification side: the locator produced by the event, if it is a successful capture
(a camera handle was available and the host resolved the capture with a picture) or a
successful pick (gallery-read permission was granted and the host picker resolved, not
cancelled, with a first asset). -/
def Event.produced (ev : Event) : Option String :=
  match ev.action with
  | .takePicture (.resolved photo) =>
    if ev.handle then some photo.uri else none
  | .pickImageFromGallery (.resolved result) =>
    if ev.galleryPermission = some true ∧ result.canceled = false then
      match result.assets with
      | some (asset :: _) => some asset.uri
      | _ => none
    else none
  | _ => none

/-- Specification side: the event is a clear or a save. -/
def Event.discards (ev : Event) : Bool :=
  match ev.action with
  | .clearImage => true
  | .saveImage _ _ => true
  | _ => false

/-- Specification side: reading a log newest first, the locator of the most recent
successful capture or pick not followed by a clear or a save, and `base` when the log
holds neither kind of event. -/
def latestLocatorFrom (base : Option String) : List Event → Option String
  | [] => base
  | ev :: older =>
    if ev.discards then none
    else match ev.produced with
      | some u => some u
      | none => latestLocatorFrom base older

/-- Every locator the host hands over in this action identifies an image resource, so
none is the empty string. -/
def hostLocatorsNonEmpty : Action → Bool
  | .takePicture (.resolved photo) => photo.uri != ""
  | .pickImageFromGallery (.resolved result) =>
    match result.assets with
    | some assets => assets.all fun asset => asset.uri != ""
    | none => true
  | _ => true

/-- Specification side: the expected captured-image reference after a log (newest
first) that starts at mount, where nothing is held. -/
def latestLocator (newestFirst : List Event) : Option String :=
  latestLocatorFrom none newestFirst

end CameraGalleryApp

namespace CameraGalleryApp

/-! ## Captured-image reference along action sequences -/

theorem latestLocatorFrom_append_singleton (base : Option String) (ev : Event)
    (newer : List Event) :
    latestLocatorFrom base (newer ++ [ev]) =
      latestLocatorFrom (latestLocatorFrom base [ev]) newer := by
  induction newer with
  | nil => rfl
  | cons e es ih =>
    simp only [List.cons_append, latestLocatorFrom]
    split
    · rfl
    · split
      · rfl
      · exact ih

theorem step_capturedImage (s : State) (a : Action) :
    (step s a).state.capturedImage =
      latestLocatorFrom s.capturedImage
        [{ action := a, handle := s.cameraRef, galleryPermission := s.hasGalleryPermission }] := by
  cases a with
  | galleryPermission host =>
    cases host <;> simp [step, requestGalleryPermission, latestLocatorFrom, Event.discards,
      Event.produced]
  | cameraPermission p => simp [step, latestLocatorFrom, Event.discards, Event.produced]
  | cameraRefSet c => simp [step, latestLocatorFrom, Event.discards, Event.produced]
  | toggleCameraFacing =>
    simp [step, toggleCameraFacing, latestLocatorFrom, Event.discards, Event.produced]
  | takePicture host =>
    cases host <;> cases h : s.cameraRef <;>
      simp [step, takePicture, latestLocatorFrom, Event.discards, Event.produced, h]
  | closeCamera => simp [step, closeCamera, latestLocatorFrom, Event.discards, Event.produced]
  | openCamera => simp [step, openCamera, latestLocatorFrom, Event.discards, Event.produced]
  | pickImageFromGallery host =>
    rcases host with ⟨canceled, assets⟩ | e
    · rcases hp : s.hasGalleryPermission with _ | _ | _ <;> cases canceled <;>
        rcases assets with _ | _ | ⟨asset, rest⟩ <;>
        simp [step, pickImageFromGallery, latestLocatorFrom, Event.discards, Event.produced,
          truthyBool, firstAssetUri, hp]
    · rcases hp : s.hasGalleryPermission with _ | _ | _ <;>
        simp [step, pickImageFromGallery, latestLocatorFrom, Event.discards, Event.produced,
          truthyBool, hp]
  | clearImage => simp [step, clearImage, latestLocatorFrom, Event.discards]
  | saveImage perm create =>
    simp only [latestLocatorFrom, Event.discards, if_true]
    rcases perm with status | e
    · by_cases hs : status = "granted"
      · cases create <;> simp [step, saveImage, saveToGallery, hs]
      · simp [step, saveImage, saveToGallery, hs]
    · simp [step, saveImage, saveToGallery]

theorem exec_capturedImage (actions : List Action) (s : State) :
    (exec s actions).capturedImage =
      latestLocatorFrom s.capturedImage (log s actions).reverse := by
  induction actions generalizing s with
  | nil => rfl
  | cons a rest ih =>
    simp only [exec, log, List.reverse_cons]
    rw [ih, latestLocatorFrom_append_singleton, step_capturedImage]

/-- C1: for every action sequence from mount and after each of its actions, the
captured-image reference held by the component is the locator of the most recent
successful capture (camera handle available, host resolved with a picture) or successful
pick (permission granted, host resolved non-cancelled with a first asset) that no clear or
save has followed, and it is absent when there is no such event. -/
theorem capturedImage_is_latest_locator (p : Option PermissionResponse)
    (actions : List Action) (n : Nat) :
    (exec (initialState p) (actions.take n)).capturedImage =
      latestLocator (log (initialState p) (actions.take n)).reverse := by
  rw [exec_capturedImage]
  rfl

end CameraGalleryApp

namespace CameraGalleryApp

/-! ## Gallery pick -/

/-- C2: when gallery-read permission is not granted (`hasGalleryPermission` is `null` or
`false`), `pickImageFromGallery` never launches the host picker whatever the host would
answer, shows exactly the prompt "No tienes permiso para acceder a la galería", and
leaves every state field unchanged. -/
theorem pick_without_permission_short_circuits (s : State) (host : Settled ImagePickerResult)
    (h : s.hasGalleryPermission = none ∨ s.hasGalleryPermission = some false) :
    (pickImageFromGallery s host).effects.any isPickerCall = false ∧
    (pickImageFromGallery s host).effects =
      [.alert "Error" "No tienes permiso para acceder a la galería"] ∧
    (pickImageFromGallery s host).state = s ∧
    (pickImageFromGallery s host).completion = .normal := by
  rcases h with h | h <;> simp [pickImageFromGallery, truthyBool, h, isPickerCall]

theorem pick_without_permission_short_circuits_witness :
    ((initialState none).hasGalleryPermission = none ∨
        (initialState none).hasGalleryPermission = some false) ∧
    (pickImageFromGallery (initialState none)
        (.resolved { canceled := false, assets := some [⟨"file:///tmp/a.jpg"⟩] })).state =
      initialState none :=
  ⟨Or.inl rfl,
   (pick_without_permission_short_circuits (initialState none)
      (.resolved { canceled := false, assets := some [⟨"file:///tmp/a.jpg"⟩] })
      (Or.inl rfl)).2.2.1⟩

/-- C4: with gallery-read permission granted, `pickImageFromGallery` launches the picker
once and ends in one of three ways fixed by the host result: on cancellation the state is
unchanged and no prompt is shown; on a non-cancelled result with a non-empty asset list
only `capturedImage` changes, to the first asset's locator, and no prompt is shown; on a
host failure the prompt "No se pudo abrir la galería" is shown and the state is unchanged.
Every host result falls under one of the three. -/
theorem pick_with_permission_outcomes (s : State) (h : s.hasGalleryPermission = some true) :
    (∀ assets, pickImageFromGallery s (.resolved { canceled := true, assets := assets }) =
      { state := s, effects := [.launchImageLibraryAsync pickerOptions],
        completion := .normal }) ∧
    (∀ asset rest,
      pickImageFromGallery s (.resolved { canceled := false, assets := some (asset :: rest) }) =
      { state := { s with capturedImage := some asset.uri },
        effects := [.launchImageLibraryAsync pickerOptions], completion := .normal }) ∧
    (∀ e, pickImageFromGallery s (.rejected e) =
      { state := s,
        effects := [.launchImageLibraryAsync pickerOptions,
                    .alert "Error" "No se pudo abrir la galería"],
        completion := .normal }) ∧
    (∀ host,
      pickImageFromGallery s host =
        { state := s, effects := [.launchImageLibraryAsync pickerOptions],
          completion := .normal } ∨
      (∃ asset : ImagePickerAsset, pickImageFromGallery s host =
        { state := { s with capturedImage := some asset.uri },
          effects := [.launchImageLibraryAsync pickerOptions], completion := .normal }) ∨
      pickImageFromGallery s host =
        { state := s,
          effects := [.launchImageLibraryAsync pickerOptions,
                      .alert "Error" "No se pudo abrir la galería"],
          completion := .normal }) := by
  refine ⟨?_, ?_, ?_, ?_⟩
  · intro assets
    simp [pickImageFromGallery, truthyBool, h]
  · intro asset rest
    simp [pickImageFromGallery, truthyBool, h, firstAssetUri]
  · intro e
    simp [pickImageFromGallery, truthyBool, h]
  · intro host
    rcases host with ⟨canceled, assets⟩ | e
    · cases canceled
      · rcases assets with _ | _ | ⟨asset, rest⟩
        · right; right
          simp [pickImageFromGallery, truthyBool, h, firstAssetUri]
        · right; right
          simp [pickImageFromGallery, truthyBool, h, firstAssetUri]
        · right; left
          exact ⟨asset, by simp [pickImageFromGallery, truthyBool, h, firstAssetUri]⟩
      · left
        simp [pickImageFromGallery, truthyBool, h]
    · right; right
      simp [pickImageFromGallery, truthyBool, h]

theorem pick_with_permission_outcomes_witness :
    (State.mk none (some true) "back" none false false).hasGalleryPermission = some true ∧
    pickImageFromGallery (State.mk none (some true) "back" none false false)
        (.resolved { canceled := false,
                     assets := some [⟨"file:///tmp/a.jpg"⟩, ⟨"file:///tmp/b.jpg"⟩] }) =
      { state := State.mk none (some true) "back" (some "file:///tmp/a.jpg") false false,
        effects := [.launchImageLibraryAsync pickerOptions], completion := .normal } :=
  ⟨rfl,
   (pick_with_permission_outcomes (State.mk none (some true) "back" none false false) rfl).2.1
      ⟨"file:///tmp/a.jpg"⟩ [⟨"file:///tmp/b.jpg"⟩]⟩

/-! ## Capture -/

/-- C3: with a camera handle available (`cameraRef.current` non-null), a capture that
resolves with a picture at locator `u` sets `capturedImage` to `u` and `showCamera` to
`false` and changes nothing else; a capture that fails shows the prompt "No se pudo tomar
la fotografía" and leaves the whole state, `capturedImage` and `showCamera` included,
unchanged.  In both cases `takePictureAsync` is requested exactly once, at quality 0.8. -/
theorem takePicture_with_handle (s : State) (h : s.cameraRef = true) :
    (∀ photo, takePicture s (.resolved photo) =
      { state := { s with capturedImage := some photo.uri, showCamera := false },
        effects := [.takePictureAsync ⟨8, 1⟩], completion := .normal }) ∧
    (∀ e, takePicture s (.rejected e) =
      { state := s,
        effects := [.takePictureAsync ⟨8, 1⟩, .alert "Error" "No se pudo tomar la fotografía"],
        completion := .normal }) ∧
    (∀ host, (takePicture s host).effects.filter isCaptureCall = [.takePictureAsync ⟨8, 1⟩]) := by
  refine ⟨?_, ?_, ?_⟩
  · intro photo
    simp [takePicture, h]
  · intro e
    simp [takePicture, h]
  · intro host
    cases host <;> simp [takePicture, h, isCaptureCall]

theorem takePicture_with_handle_witness :
    (State.mk (some ⟨true⟩) none "back" none true true).cameraRef = true ∧
    takePicture (State.mk (some ⟨true⟩) none "back" none true true)
        (.resolved ⟨"file:///tmp/photo123.jpg"⟩) =
      { state := State.mk (some ⟨true⟩) none "back" (some "file:///tmp/photo123.jpg") false true,
        effects := [.takePictureAsync ⟨8, 1⟩], completion := .normal } :=
  ⟨rfl,
   (takePicture_with_handle (State.mk (some ⟨true⟩) none "back" none true true) rfl).1
      ⟨"file:///tmp/photo123.jpg"⟩⟩

end CameraGalleryApp

namespace CameraGalleryApp

/-! ## Save -/

/-- C6: every run of `saveToGallery` first requests gallery-write permission, once and
with the write-only flag, whatever the state it starts from; it never changes a state
field; when the status is not "granted" it shows the permission-denied prompt and makes
no asset-creation call; the asset-creation call is made exactly when the status is
"granted", and then once, with the current `capturedImage`. -/
theorem saveToGallery_permission_gate (s : State) (perm : Settled String)
    (create : Settled Unit) :
    (saveToGallery s perm create).effects.head? = some (.requestPermissionsAsync true) ∧
    (saveToGallery s perm create).effects.filter isWritePermissionCall =
      [.requestPermissionsAsync true] ∧
    (saveToGallery s perm create).state = s ∧
    (∀ status, perm = .resolved status → status ≠ "granted" →
      (saveToGallery s perm create).effects =
        [.requestPermissionsAsync true,
         .alert "Permiso denegado" "No se concedió permiso para guardar en la galería."]) ∧
    ((saveToGallery s perm create).effects.any isCreateAssetCall = true ↔
      perm = .resolved "granted") ∧
    (perm = .resolved "granted" →
      (saveToGallery s perm create).effects.filter isCreateAssetCall =
        [.createAssetAsync s.capturedImage]) := by
  rcases perm with status | e
  · by_cases hs : status = "granted"
    · cases create <;>
        simp [saveToGallery, hs, isWritePermissionCall, isCreateAssetCall]
    · simp [saveToGallery, hs, isWritePermissionCall, isCreateAssetCall]
  · simp [saveToGallery, isWritePermissionCall, isCreateAssetCall]

/-- C5: from a state holding a captured-image reference, the save control's handler
completes with the reference absent (and no other field changed) for every host outcome,
asset creation, when reached, being asked for that reference; the prompt shown is the confirmation "Imagen guardada en la galería." exactly when
permission was granted and asset creation succeeded, and otherwise it is the
permission-denied prompt or the prompt "No se pudo guardar la imagen.". -/
theorem saveImage_always_clears (s : State) (u : String) (h : s.capturedImage = some u)
    (perm : Settled String) (create : Settled Unit) :
    (saveImage s perm create).state = { s with capturedImage := none } ∧
    (saveImage s perm create).completion = .normal ∧
    (perm = .resolved "granted" →
      (saveImage s perm create).effects.filter isCreateAssetCall =
        [.createAssetAsync (some u)]) ∧
    (prompts (saveImage s perm create).effects = [("Listo", "Imagen guardada en la galería.")] ↔
      perm = .resolved "granted" ∧ create = .resolved ()) ∧
    (¬ (perm = .resolved "granted" ∧ create = .resolved ()) →
      prompts (saveImage s perm create).effects =
          [("Permiso denegado", "No se concedió permiso para guardar en la galería.")] ∨
      prompts (saveImage s perm create).effects = [("Error", "No se pudo guardar la imagen.")]) := by
  rcases perm with status | e
  · by_cases hs : status = "granted"
    · cases create <;> simp [saveImage, saveToGallery, hs, prompts, isCreateAssetCall, h]
    · simp [saveImage, saveToGallery, hs, prompts]
  · simp [saveImage, saveToGallery, prompts]

theorem saveImage_always_clears_witness :
    (State.mk (some ⟨true⟩) (some true) "back" (some "file:///tmp/photo123.jpg") false
        false).capturedImage = some "file:///tmp/photo123.jpg" ∧
    (saveImage
        (State.mk (some ⟨true⟩) (some true) "back" (some "file:///tmp/photo123.jpg") false false)
        (.resolved "denied") (.resolved ())).state =
      State.mk (some ⟨true⟩) (some true) "back" none false false :=
  ⟨rfl,
   (saveImage_always_clears
      (State.mk (some ⟨true⟩) (some true) "back" (some "file:///tmp/photo123.jpg") false false)
      "file:///tmp/photo123.jpg" rfl (.resolved "denied") (.resolved ())).1⟩

end CameraGalleryApp

namespace CameraGalleryApp

/-! ## Error containment -/

/-- The three handlers whose host calls sit inside `try` fulfil for every host outcome, and
each host failure puts a prompt on screen. -/
theorem guarded_handlers_complete_normally (s : State) :
    (∀ host, (takePicture s host).completion = .normal) ∧
    (∀ host, (pickImageFromGallery s host).completion = .normal) ∧
    (∀ perm create, (saveToGallery s perm create).completion = .normal) ∧
    (∀ e, s.cameraRef = true → prompts (takePicture s (.rejected e)).effects ≠ []) ∧
    (∀ e, prompts (pickImageFromGallery s (.rejected e)).effects ≠ []) ∧
    (∀ e create, prompts (saveToGallery s (.rejected e) create).effects ≠ []) ∧
    (∀ e, prompts (saveToGallery s (.resolved "granted") (.rejected e)).effects ≠ []) := by
  refine ⟨?_, ?_, ?_, ?_, ?_, ?_, ?_⟩
  · intro host
    cases host <;> cases h : s.cameraRef <;> simp [takePicture, h]
  · intro host
    rcases host with ⟨canceled, assets⟩ | e
    · rcases hp : s.hasGalleryPermission with _ | _ | _ <;> cases canceled <;>
        rcases assets with _ | _ | ⟨asset, rest⟩ <;>
        simp [pickImageFromGallery, truthyBool, firstAssetUri, hp]
    · rcases hp : s.hasGalleryPermission with _ | _ | _ <;>
        simp [pickImageFromGallery, truthyBool, hp]
  · intro perm create
    rcases perm with status | e
    · by_cases hs : status = "granted"
      · cases create <;> simp [saveToGallery, hs]
      · simp [saveToGallery, hs]
    · simp [saveToGallery]
  · intro e h
    simp [takePicture, h, prompts]
  · intro e
    rcases hp : s.hasGalleryPermission with _ | _ | _ <;>
      simp [pickImageFromGallery, truthyBool, hp, prompts]
  · intro e create
    simp [saveToGallery, prompts]
  · intro e
    simp [saveToGallery, prompts]

/-- C7: at mount, when the host rejects `requestMediaLibraryPermissionsAsync`, the promise
of `requestGalleryPermission` rejects with the same error: the handler does not complete
normally, shows no prompt, and leaves `hasGalleryPermission` at `null`. -/
theorem requestGalleryPermission_rejection_escapes :
    requestGalleryPermission (initialState none) (.rejected ⟨"ERR_MEDIA_LIBRARY"⟩) =
      { state := initialState none,
        effects := [.requestMediaLibraryPermissionsAsync],
        completion := .thrown ⟨"ERR_MEDIA_LIBRARY"⟩ } ∧
    prompts (requestGalleryPermission (initialState none)
      (.rejected ⟨"ERR_MEDIA_LIBRARY"⟩)).effects = [] := by
  constructor <;> rfl

/-! ## UI mode -/

/-- C8: `showCamera` changes only from `false` to `true` on open-camera and from `true` to
`false` on user-close or on a capture that succeeds; capture failure, capture without a
camera handle, gallery pick, save, clear, facing toggle and the gallery-permission result
leave it unchanged, whatever the host outcome; and the rendered screen is the camera screen
only when `showCamera` is `true` and the default screen only when it is `false`. -/
theorem showCamera_two_state_machine (s : State) (a : Action) :
    (step s .openCamera).state.showCamera = true ∧
    (step s .closeCamera).state.showCamera = false ∧
    (∀ photo, s.cameraRef = true →
      (step s (.takePicture (.resolved photo))).state.showCamera = false) ∧
    ((step s a).state.showCamera ≠ s.showCamera →
      (s.showCamera = false ∧ a = .openCamera) ∨
      (s.showCamera = true ∧
        (a = .closeCamera ∨
          (s.cameraRef = true ∧ ∃ photo, a = .takePicture (.resolved photo))))) ∧
    (∀ e, (step s (.takePicture (.rejected e))).state.showCamera = s.showCamera) ∧
    (∀ host, s.cameraRef = false →
      (step s (.takePicture host)).state.showCamera = s.showCamera) ∧
    (∀ host, (step s (.pickImageFromGallery host)).state.showCamera = s.showCamera) ∧
    (∀ perm create, (step s (.saveImage perm create)).state.showCamera = s.showCamera) ∧
    (step s .clearImage).state.showCamera = s.showCamera ∧
    (step s .toggleCameraFacing).state.showCamera = s.showCamera ∧
    (∀ host, (step s (.galleryPermission host)).state.showCamera = s.showCamera) ∧
    (∀ f, (render s).kind = .camera f → s.showCamera = true) ∧
    ((render s).kind = .default → s.showCamera = false) := by
  have hpick : ∀ host, (pickImageFromGallery s host).state.showCamera = s.showCamera := by
    intro host
    rcases host with ⟨canceled, assets⟩ | e
    · rcases hp : s.hasGalleryPermission with _ | _ | _ <;> cases canceled <;>
        rcases assets with _ | _ | ⟨asset, rest⟩ <;>
        simp [pickImageFromGallery, truthyBool, firstAssetUri, hp]
    · rcases hp : s.hasGalleryPermission with _ | _ | _ <;>
        simp [pickImageFromGallery, truthyBool, hp]
  have hsave : ∀ perm create, (saveImage s perm create).state.showCamera = s.showCamera := by
    intro perm create
    rcases perm with status | e
    · by_cases hs : status = "granted"
      · cases create <;> simp [saveImage, saveToGallery, hs]
      · simp [saveImage, saveToGallery, hs]
    · simp [saveImage, saveToGallery]
  have hperm : ∀ host, (requestGalleryPermission s host).state.showCamera = s.showCamera := by
    intro host
    cases host <;> simp [requestGalleryPermission]
  refine ⟨rfl, rfl, ?_, ?_, ?_, ?_, hpick, hsave, rfl, rfl, hperm, ?_, ?_⟩
  · intro photo h
    simp [step, takePicture, h]
  · intro hne
    cases a with
    | galleryPermission host => exact absurd (hperm host) hne
    | cameraPermission p => exact absurd rfl hne
    | cameraRefSet c => exact absurd rfl hne
    | toggleCameraFacing => exact absurd rfl hne
    | takePicture host =>
      cases hr : s.cameraRef
      · simp [step, takePicture, hr] at hne
      · cases host with
        | resolved photo =>
          cases hc : s.showCamera
          · simp [step, takePicture, hr, hc] at hne
          · right
            exact ⟨rfl, Or.inr ⟨rfl, photo, rfl⟩⟩
        | rejected e => simp [step, takePicture, hr] at hne
    | closeCamera =>
      cases hc : s.showCamera
      · simp [step, closeCamera, hc] at hne
      · right
        exact ⟨rfl, Or.inl rfl⟩
    | openCamera =>
      cases hc : s.showCamera
      · left
        exact ⟨rfl, rfl⟩
      · simp [step, openCamera, hc] at hne
    | pickImageFromGallery host => exact absurd (hpick host) hne
    | clearImage => exact absurd rfl hne
    | saveImage perm create => exact absurd (hsave perm create) hne
  · intro e
    cases h : s.cameraRef <;> simp [step, takePicture, h]
  · intro host h
    simp [step, takePicture, h]
  · intro f hk
    rcases hp : s.permission with _ | p
    · simp [render, hp] at hk
    · cases hg : p.granted <;> cases hc : s.showCamera <;> simp [render, hp, hg, hc] at hk ⊢
  · intro hk
    rcases hp : s.permission with _ | p
    · simp [render, hp] at hk
    · cases hg : p.granted <;> cases hc : s.showCamera <;> simp [render, hp, hg, hc] at hk ⊢

end CameraGalleryApp

namespace CameraGalleryApp

/-! ## Camera facing -/

theorem step_facing (s : State) (a : Action)
    (h : s.facing = "back" ∨ s.facing = "front") :
    (step s a).state.facing = "back" ∨ (step s a).state.facing = "front" := by
  cases a with
  | galleryPermission host => cases host <;> simpa [step, requestGalleryPermission] using h
  | cameraPermission p => simpa [step] using h
  | cameraRefSet c => simpa [step] using h
  | toggleCameraFacing =>
    rcases h with h | h <;> simp [step, toggleCameraFacing, h]
  | takePicture host =>
    cases host <;> cases hr : s.cameraRef <;> simpa [step, takePicture, hr] using h
  | closeCamera => simpa [step, closeCamera] using h
  | openCamera => simpa [step, openCamera] using h
  | pickImageFromGallery host =>
    rcases host with ⟨canceled, assets⟩ | e
    · rcases hp : s.hasGalleryPermission with _ | _ | _ <;> cases canceled <;>
        rcases assets with _ | _ | ⟨asset, rest⟩ <;>
        simpa [step, pickImageFromGallery, truthyBool, firstAssetUri, hp] using h
    · rcases hp : s.hasGalleryPermission with _ | _ | _ <;>
        simpa [step, pickImageFromGallery, truthyBool, hp] using h
  | clearImage => simpa [step, clearImage] using h
  | saveImage perm create =>
    rcases perm with status | e
    · by_cases hs : status = "granted"
      · cases create <;> simpa [step, saveImage, saveToGallery, hs] using h
      · simpa [step, saveImage, saveToGallery, hs] using h
    · simpa [step, saveImage, saveToGallery] using h

theorem exec_facing (actions : List Action) (s : State)
    (h : s.facing = "back" ∨ s.facing = "front") :
    (exec s actions).facing = "back" ∨ (exec s actions).facing = "front" := by
  induction actions generalizing s with
  | nil => exact h
  | cons a rest ih => exact ih _ (step_facing s a h)

theorem reachable_facing (s : State) (h : Reachable s) :
    s.facing = "back" ∨ s.facing = "front" := by
  obtain ⟨p, actions, rfl⟩ := h
  exact exec_facing actions _ (Or.inl rfl)

/-- C9: in every state the component can reach, `toggleCameraFacing` issues no host call
or prompt, changes no field other than `facing`, turns "back" into "front" and "front"
into "back" (so the direction after one toggle differs from the one before), and applied
twice gives back the original state. -/
theorem toggleCameraFacing_flips (s : State) (h : Reachable s) :
    (toggleCameraFacing s).effects = [] ∧
    (toggleCameraFacing s).completion = .normal ∧
    (toggleCameraFacing s).state = { s with facing := (toggleCameraFacing s).state.facing } ∧
    (s.facing = "back" → (toggleCameraFacing s).state.facing = "front") ∧
    (s.facing = "front" → (toggleCameraFacing s).state.facing = "back") ∧
    (toggleCameraFacing s).state.facing ≠ s.facing ∧
    (toggleCameraFacing (toggleCameraFacing s).state).state = s := by
  refine ⟨rfl, rfl, rfl, ?_, ?_, ?_, ?_⟩
  · intro hb
    simp [toggleCameraFacing, hb]
  · intro hf
    simp [toggleCameraFacing, hf]
  · rcases reachable_facing s h with hb | hf
    · simp [toggleCameraFacing, hb]
    · simp [toggleCameraFacing, hf]
  · obtain ⟨permission, gallery, facing, image, showCamera, cameraRef⟩ := s
    rcases reachable_facing _ h with hb | hf
    · simp only at hb
      subst hb
      simp [toggleCameraFacing]
    · simp only at hf
      subst hf
      simp [toggleCameraFacing]

theorem toggleCameraFacing_flips_witness :
    Reachable (exec (initialState none) [.openCamera, .toggleCameraFacing]) ∧
    (toggleCameraFacing (toggleCameraFacing
        (exec (initialState none) [.openCamera, .toggleCameraFacing])).state).state =
      exec (initialState none) [.openCamera, .toggleCameraFacing] :=
  ⟨⟨none, [.openCamera, .toggleCameraFacing], rfl⟩,
   (toggleCameraFacing_flips (exec (initialState none) [.openCamera, .toggleCameraFacing])
      ⟨none, [.openCamera, .toggleCameraFacing], rfl⟩).2.2.2.2.2.2⟩

/-! ## Default view -/

/-- In the default view each JSX guard `capturedImage && (...)` follows the truthiness of
`capturedImage`. -/
theorem render_default_guards (s : State) (hp : s.permission = some ⟨true⟩)
    (hc : s.showCamera = false) :
    previewRendered (render s) = truthyString s.capturedImage ∧
    clearRendered (render s) = truthyString s.capturedImage ∧
    saveRendered (render s) = truthyString s.capturedImage := by
  cases hi : s.capturedImage with
  | none =>
    simp [render, hp, hc, previewRendered, clearRendered, saveRendered, whenCaptured,
      truthyString, hi]
  | some u =>
    by_cases hu : u = "" <;>
      simp [render, hp, hc, previewRendered, clearRendered, saveRendered, whenCaptured,
        truthyString, hi, hu]

theorem step_capturedImage_ne_empty (s : State) (a : Action)
    (ha : hostLocatorsNonEmpty a = true) (h : s.capturedImage ≠ some "") :
    (step s a).state.capturedImage ≠ some "" := by
  cases a with
  | galleryPermission host => cases host <;> simpa [step, requestGalleryPermission] using h
  | cameraPermission p => simpa [step] using h
  | cameraRefSet c => simpa [step] using h
  | toggleCameraFacing => simpa [step, toggleCameraFacing] using h
  | takePicture host =>
    cases host with
    | resolved photo =>
      cases hr : s.cameraRef
      · simpa [step, takePicture, hr] using h
      · simpa [step, takePicture, hr, hostLocatorsNonEmpty] using ha
    | rejected e => cases hr : s.cameraRef <;> simpa [step, takePicture, hr] using h
  | closeCamera => simpa [step, closeCamera] using h
  | openCamera => simpa [step, openCamera] using h
  | pickImageFromGallery host =>
    rcases host with ⟨canceled, assets⟩ | e
    · rcases hp : s.hasGalleryPermission with _ | _ | _ <;> cases canceled <;>
        rcases assets with _ | _ | ⟨asset, rest⟩ <;>
        simp [step, pickImageFromGallery, truthyBool, firstAssetUri, hp,
          hostLocatorsNonEmpty] at ha ⊢ <;>
        first | exact h | exact ha.1
    · rcases hp : s.hasGalleryPermission with _ | _ | _ <;>
        simpa [step, pickImageFromGallery, truthyBool, hp] using h
  | clearImage => simp [step, clearImage]
  | saveImage perm create =>
    rcases perm with status | e
    · by_cases hs : status = "granted"
      · cases create <;> simp [step, saveImage, saveToGallery, hs]
      · simp [step, saveImage, saveToGallery, hs]
    · simp [step, saveImage, saveToGallery]

/-- As long as the host only hands over non-empty locators, the reference the component
holds is never the empty string. -/
theorem exec_capturedImage_ne_empty (actions : List Action) (s : State)
    (ha : ∀ a ∈ actions, hostLocatorsNonEmpty a = true) (h : s.capturedImage ≠ some "") :
    (exec s actions).capturedImage ≠ some "" := by
  induction actions generalizing s with
  | nil => exact h
  | cons a rest ih =>
    exact ih _ (fun b hb => ha b (List.mem_cons_of_mem a hb))
      (step_capturedImage_ne_empty s a (ha a (List.mem_cons_self a rest)) h)

/-- C10: in the default view (camera permission granted, `showCamera` false), for every
held reference that is a locator the host can return (a reference to an image resource,
so not the empty string), the preview image, the clear control and the save control are
each rendered exactly when a captured-image reference is present, the preview showing
that locator; and after the clear control or the save control's handler has run (any host
outcome) none of the three is rendered. -/
theorem default_view_shows_image_iff_present (s : State) (hp : s.permission = some ⟨true⟩)
    (hc : s.showCamera = false) (hloc : s.capturedImage ≠ some "") :
    (render s).kind = .default ∧
    (previewRendered (render s) = true ↔ s.capturedImage ≠ none) ∧
    (clearRendered (render s) = true ↔ s.capturedImage ≠ none) ∧
    (saveRendered (render s) = true ↔ s.capturedImage ≠ none) ∧
    (∀ u, s.capturedImage = some u → Node.image u ∈ (render s).children) ∧
    (previewRendered (render (clearImage s).state) = false ∧
      clearRendered (render (clearImage s).state) = false ∧
      saveRendered (render (clearImage s).state) = false) ∧
    (∀ perm create,
      previewRendered (render (saveImage s perm create).state) = false ∧
      clearRendered (render (saveImage s perm create).state) = false ∧
      saveRendered (render (saveImage s perm create).state) = false) := by
  have htruthy : (truthyString s.capturedImage = true ↔ s.capturedImage ≠ none) := by
    cases hi : s.capturedImage with
    | none => simp [truthyString]
    | some u =>
      have hu : u ≠ "" := fun hu => hloc (by rw [hi, hu])
      simp [truthyString, hu]
  have hsave : ∀ perm create,
      (saveImage s perm create).state = { s with capturedImage := none } := by
    intro perm create
    rcases perm with status | e
    · by_cases hs : status = "granted"
      · cases create <;> simp [saveImage, saveToGallery, hs]
      · simp [saveImage, saveToGallery, hs]
    · simp [saveImage, saveToGallery]
  have hcleared : previewRendered (render { s with capturedImage := none }) = false ∧
      clearRendered (render { s with capturedImage := none }) = false ∧
      saveRendered (render { s with capturedImage := none }) = false :=
    render_default_guards { s with capturedImage := none } hp hc
  obtain ⟨hpre, hclr, hsav⟩ := render_default_guards s hp hc
  refine ⟨?_, ?_, ?_, ?_, ?_, hcleared, ?_⟩
  · simp [render, hp, hc]
  · rw [hpre]
    exact htruthy
  · rw [hclr]
    exact htruthy
  · rw [hsav]
    exact htruthy
  · intro u hi
    have hu : u ≠ "" := fun hu => hloc (by rw [hi, hu])
    simp [render, hp, hc, whenCaptured, hi, hu]
  · intro perm create
    rw [hsave]
    exact hcleared

theorem default_view_shows_image_iff_present_witness :
    (State.mk (some ⟨true⟩) (some true) "back" (some "file:///tmp/photo123.jpg") false
        false).permission = some ⟨true⟩ ∧
    (State.mk (some ⟨true⟩) (some true) "back" (some "file:///tmp/photo123.jpg") false
        false).showCamera = false ∧
    (State.mk (some ⟨true⟩) (some true) "back" (some "file:///tmp/photo123.jpg") false
        false).capturedImage ≠ some "" ∧
    previewRendered (render (State.mk (some ⟨true⟩) (some true) "back"
        (some "file:///tmp/photo123.jpg") false false)) = true ∧
    Node.image "file:///tmp/photo123.jpg" ∈
      (render (State.mk (some ⟨true⟩) (some true) "back" (some "file:///tmp/photo123.jpg")
        false false)).children :=
  ⟨rfl, rfl, by decide,
   (default_view_shows_image_iff_present
      (State.mk (some ⟨true⟩) (some true) "back" (some "file:///tmp/photo123.jpg") false false)
      rfl rfl (by decide)).2.1.2 (by decide),
   (default_view_shows_image_iff_present
      (State.mk (some ⟨true⟩) (some true) "back" (some "file:///tmp/photo123.jpg") false false)
      rfl rfl (by decide)).2.2.2.2.1 "file:///tmp/photo123.jpg" rfl⟩

end CameraGalleryApp
